import Mathlib

/-!
# sftpgo: credential verification, quota ledger, user listing, quota scan

A shallow embedding of `dataprovider/sqlcommon.go` and `api/quota.go`.

* Go `string` values are Lean `String`s; `len(s) == 0` is `s.length = 0`.
* Go `int` is `Int` wrapped to `intSize` bits, `int64` is `Int` wrapped to 64 bits.
* A Go `error` is `Option GoError`, `none` being `nil`.
* The database handle is explicit state: a `World` holds the driver state and a
  journal of every call made on the handle, in order.
* Logger calls of the data provider have no effect on results and are left out;
  the quota scan handler keeps them as events.
-/

namespace Sftpgo

/-! ## Errors -/

/-- An error handed back by a collaborator outside this package
(database/sql, argon2id, bcrypt, ssh, encoding/json), with its message. -/
structure ExtError where
  pkg : String
  msg : String
deriving DecidableEq, Repr

/-- A Go error value: either `errors.New(msg)` evaluated in this package, or an
error of a collaborator passed through unchanged. -/
inductive GoError where
  | errorsNew (msg : String)
  | ext (e : ExtError)
deriving DecidableEq, Repr

/-- The value `errors.New("Credentials cannot be null or empty")`. -/
def credentialsEmpty : GoError := GoError.errorsNew "Credentials cannot be null or empty"

/-- The value `errors.New("Invalid credentials")`. -/
def invalidCredentials : GoError := GoError.errorsNew "Invalid credentials"

/-- Lifting of a collaborator's `error` result into a Go `error`. -/
def liftErr : Option ExtError → Option GoError
  | none => none
  | some e => some (GoError.ext e)

/-! ## Machine integers -/

/-- Two's complement wrap of `x` to `w` bits. -/
def wrap (w : Nat) (x : Int) : Int :=
  (x + 2 ^ (w - 1)) % 2 ^ w - 2 ^ (w - 1)

/-- The values of a signed `w`-bit integer. -/
def inRange (w : Nat) (x : Int) : Prop :=
  -(2 ^ (w - 1)) ≤ x ∧ x < 2 ^ (w - 1)

/-! ## The user record -/

/-- The fields of `dataprovider.User` that `sqlcommon.go` reads and writes. A nil
`Permissions` slice is the empty list. -/
structure User where
  ID : Int
  Username : String
  Password : String
  PublicKey : String
  HomeDir : String
  UID : Int
  GID : Int
  MaxSessions : Int
  QuotaSize : Int
  QuotaFiles : Int
  Permissions : List String
  UsedQuotaSize : Int
  UsedQuotaFiles : Int
  LastQuotaScan : Int
  UploadBandwidth : Int
  DownloadBandwidth : Int
deriving DecidableEq, Repr

/-- The zero value `var user User`. -/
def zeroUser : User :=
  { ID := 0, Username := "", Password := "", PublicKey := "", HomeDir := "",
    UID := 0, GID := 0, MaxSessions := 0, QuotaSize := 0, QuotaFiles := 0,
    Permissions := [], UsedQuotaSize := 0, UsedQuotaFiles := 0, LastQuotaScan := 0,
    UploadBandwidth := 0, DownloadBandwidth := 0 }

/-! ## The storage handle -/

/-- Modelled from the spec: the statements of the query provider
that the functions below prepare (`getUserByUsernameQuery`, `getUserByIDQuery`,
`getUpdateQuotaQuery`, `getQuotaQuery`, `getUpdateUserQuery`,
`getUsersQuery(order, username)`), whose text is not part of these sources. -/
inductive Statement where
  | getUserByUsername
  | getUserByID
  | updateQuota
  | getQuota
  | updateUser
  | getUsers (order : String) (username : String)
deriving DecidableEq, Repr

/-- A value bound to a statement placeholder. -/
inductive SqlValue where
  | int (i : Int)
  | str (s : String)
deriving DecidableEq, Repr

/-- What `Scan` stored for the sixteen columns of a user row. The three
`sql.NullString` destinations are `none` when `Valid` is false. -/
structure ScannedRow where
  id : Int
  username : String
  password : Option String
  publicKey : Option String
  homeDir : String
  uid : Int
  gid : Int
  maxSessions : Int
  quotaSize : Int
  quotaFiles : Int
  permissions : Option String
  usedQuotaSize : Int
  usedQuotaFiles : Int
  lastQuotaScan : Int
  uploadBandwidth : Int
  downloadBandwidth : Int
deriving DecidableEq, Repr

/-- The outcome of one `Scan` of a user row: the destinations as `Scan` left
them, and its error. When the error is set the destinations hold whatever was
filled before the failure. -/
structure ScanOutcome where
  cols : ScannedRow
  err : Option ExtError
deriving DecidableEq, Repr

/-- One call made on the database handle. -/
inductive SqlCall where
  | prepare (q : Statement)
  | exec (q : Statement) (args : List SqlValue)
  | queryRow (q : Statement) (args : List SqlValue)
  | query (q : Statement) (args : List SqlValue)
deriving DecidableEq, Repr

/-- The database/sql driver behind `dbHandle`, over a driver state `σ`:
what `Prepare`, `Exec`, `QueryRow(..).Scan(..)` and `Query` answer. `scanQuota`
yields the pair in the order of the `Scan` destinations, `(usedSize, usedFiles)`. -/
structure Driver (σ : Type) where
  prepare : σ → Statement → Option ExtError
  exec : σ → Statement → List SqlValue → σ × Option ExtError
  scanUser : σ → Statement → List SqlValue → ScanOutcome
  scanQuota : σ → Statement → List SqlValue → (Int × Int) × Option ExtError
  query : σ → Statement → List SqlValue → Except ExtError (List ScanOutcome)

/-- The driver state together with the journal of calls made so far. -/
structure World (σ : Type) where
  db : σ
  journal : List SqlCall

/-- The call `dbHandle.Prepare(q)`. -/
def dbPrepare {σ : Type} (d : Driver σ) (q : Statement) (w : World σ) :
    Option ExtError × World σ :=
  (d.prepare w.db q, { w with journal := w.journal ++ [SqlCall.prepare q] })

/-- The call `stmt.Exec(args...)`; the `sql.Result` is dropped by every caller. -/
def stmtExec {σ : Type} (d : Driver σ) (q : Statement) (args : List SqlValue) (w : World σ) :
    Option ExtError × World σ :=
  ((d.exec w.db q args).2,
   { db := (d.exec w.db q args).1, journal := w.journal ++ [SqlCall.exec q args] })

/-- The call `stmt.QueryRow(args...)` followed by `Scan` into a user row. -/
def stmtQueryRowUser {σ : Type} (d : Driver σ) (q : Statement) (args : List SqlValue)
    (w : World σ) : ScanOutcome × World σ :=
  (d.scanUser w.db q args, { w with journal := w.journal ++ [SqlCall.queryRow q args] })

/-- The call `stmt.QueryRow(args...).Scan(&usedSize, &usedFiles)`. -/
def stmtQueryRowQuota {σ : Type} (d : Driver σ) (q : Statement) (args : List SqlValue)
    (w : World σ) : ((Int × Int) × Option ExtError) × World σ :=
  (d.scanQuota w.db q args, { w with journal := w.journal ++ [SqlCall.queryRow q args] })

/-- The call `stmt.Query(args...)`: an error, or the outcomes of `rows.Scan` for
the rows that `rows.Next()` yields, in order. -/
def stmtQuery {σ : Type} (d : Driver σ) (q : Statement) (args : List SqlValue)
    (w : World σ) : Except ExtError (List ScanOutcome) × World σ :=
  (d.query w.db q args, { w with journal := w.journal ++ [SqlCall.query q args] })

/-! ## Collaborators of the data provider -/

/-- A parsed `ssh.PublicKey`, seen through `Marshal()`: its wire bytes. -/
structure SSHPublicKey where
  marshal : String
deriving DecidableEq, Repr

/-- The constants and library functions `sqlcommon.go` uses and does not define. -/
structure Prims where
  argonPwdPrefix : String
  bcryptPwdPrefix : String
  argon2idComparePasswordAndHash : String → String → Bool × Option ExtError
  bcryptCompareHashAndPassword : String → String → Option ExtError
  sshParseAuthorizedKey : String → Except ExtError SSHPublicKey
  jsonUnmarshal : String → Except ExtError (List String)
  validateUser : User → User × Option GoError
  getPermissionsAsJSON : User → Except ExtError String

/-- The function `strings.HasPrefix(s, p)`. -/
def stringsHasPrefix (s p : String) : Bool :=
  p.data.isPrefixOf s.data

/-! ## Row decoding and single-record lookups -/

/-- Which of the two arguments of `getUserFromDbRow` is non-nil. -/
inductive RowArg where
  | row (sc : ScanOutcome)
  | rows (sc : ScanOutcome)

/-- The outcome of the `Scan` chosen by `if row != nil`. -/
def RowArg.scan : RowArg → ScanOutcome
  | RowArg.row sc => sc
  | RowArg.rows sc => sc

/-- The function `getUserFromDbRow`. -/
def getUserFromDbRow (P : Prims) (a : RowArg) : User × Option GoError :=
  let sc := a.scan
  let user : User :=
    { zeroUser with
      ID := sc.cols.id, Username := sc.cols.username, HomeDir := sc.cols.homeDir,
      UID := sc.cols.uid, GID := sc.cols.gid, MaxSessions := sc.cols.maxSessions,
      QuotaSize := sc.cols.quotaSize, QuotaFiles := sc.cols.quotaFiles,
      UsedQuotaSize := sc.cols.usedQuotaSize, UsedQuotaFiles := sc.cols.usedQuotaFiles,
      LastQuotaScan := sc.cols.lastQuotaScan, UploadBandwidth := sc.cols.uploadBandwidth,
      DownloadBandwidth := sc.cols.downloadBandwidth }
  match sc.err with
  | some e => (user, some (GoError.ext e))
  | none =>
    let user := match sc.cols.password with
      | some s => { user with Password := s }
      | none => user
    let user := match sc.cols.publicKey with
      | some s => { user with PublicKey := s }
      | none => user
    match sc.cols.permissions with
    | none => (user, none)
    | some js =>
      match P.jsonUnmarshal js with
      | Except.ok list => ({ user with Permissions := list }, none)
      | Except.error e => (user, some (GoError.ext e))

/-- The function `getUserByUsername`. -/
def getUserByUsername {σ : Type} (d : Driver σ) (P : Prims) (username : String)
    (w : World σ) : (User × Option GoError) × World σ :=
  match dbPrepare d Statement.getUserByUsername w with
  | (some e, w1) => ((zeroUser, some (GoError.ext e)), w1)
  | (none, w1) =>
    let r := stmtQueryRowUser d Statement.getUserByUsername [SqlValue.str username] w1
    (getUserFromDbRow P (RowArg.row r.1), r.2)

/-- The function `sqlCommonGetUserByID`. -/
def sqlCommonGetUserByID {σ : Type} (d : Driver σ) (P : Prims) (ID : Int)
    (w : World σ) : (User × Option GoError) × World σ :=
  match dbPrepare d Statement.getUserByID w with
  | (some e, w1) => ((zeroUser, some (GoError.ext e)), w1)
  | (none, w1) =>
    let r := stmtQueryRowUser d Statement.getUserByID [SqlValue.int ID] w1
    (getUserFromDbRow P (RowArg.row r.1), r.2)

/-! ## Credential verification -/

/-- The function `sqlCommonValidateUserAndPass`. -/
def sqlCommonValidateUserAndPass {σ : Type} (d : Driver σ) (P : Prims)
    (username password : String) (w : World σ) : (User × Option GoError) × World σ :=
  if password.length = 0 then
    ((zeroUser, some credentialsEmpty), w)
  else
    match getUserByUsername d P username w with
    | ((user, some err), w1) => ((user, some err), w1)
    | ((user, none), w1) =>
      if stringsHasPrefix user.Password P.argonPwdPrefix then
        match P.argon2idComparePasswordAndHash password user.Password with
        | (_, some e) => ((user, some (GoError.ext e)), w1)
        | (mtch, none) =>
          if !mtch then ((user, some invalidCredentials), w1) else ((user, none), w1)
      else if stringsHasPrefix user.Password P.bcryptPwdPrefix then
        match P.bcryptCompareHashAndPassword user.Password password with
        | some e => ((user, some (GoError.ext e)), w1)
        | none => ((user, none), w1)
      else
        if !(decide (user.Password = password)) then ((user, some invalidCredentials), w1)
        else ((user, none), w1)

/-- The function `sqlCommonValidateUserAndPubKey`. -/
def sqlCommonValidateUserAndPubKey {σ : Type} (d : Driver σ) (P : Prims)
    (username pubKey : String) (w : World σ) : (User × Option GoError) × World σ :=
  if pubKey.length = 0 then
    ((zeroUser, some credentialsEmpty), w)
  else
    match getUserByUsername d P username w with
    | ((user, some err), w1) => ((user, some err), w1)
    | ((user, none), w1) =>
      if user.PublicKey.length > 0 then
        match P.sshParseAuthorizedKey user.PublicKey with
        | Except.error e => ((user, some (GoError.ext e)), w1)
        | Except.ok storedPubKey =>
          if storedPubKey.marshal ≠ pubKey then ((user, some invalidCredentials), w1)
          else ((user, none), w1)
      else
        ((user, some invalidCredentials), w1)


/-! ## An in-memory database and stand-in collaborators

Used to run the functions on concrete inputs. The theorems that quantify over
`Driver` and `Prims` do not depend on them. -/

/-- The error `sql.ErrNoRows`. -/
def errNoRows : ExtError := { pkg := "sql", msg := "sql: no rows in result set" }

/-- The error a driver reports for a statement bound to the wrong arguments. -/
def errBadArgs : ExtError := { pkg := "sql", msg := "sql: wrong arguments for statement" }

/-- The row `Scan` leaves behind when it fills nothing. -/
def zeroRow : ScannedRow :=
  { id := 0, username := "", password := none, publicKey := none, homeDir := "",
    uid := 0, gid := 0, maxSessions := 0, quotaSize := 0, quotaFiles := 0,
    permissions := none, usedQuotaSize := 0, usedQuotaFiles := 0, lastQuotaScan := 0,
    uploadBandwidth := 0, downloadBandwidth := 0 }

/-- Modelled from the spec: the storage backend (database/sql and the SQL engine
behind it, not part of these sources), as a `users` table held in memory, with
the faults the backend can report on `Prepare`, on `Exec` and on queries. -/
structure MemDb where
  users : List ScannedRow
  prepareErr : Option ExtError
  execErr : Option ExtError
  queryErr : Option ExtError
deriving DecidableEq, Repr

/-- Lexicographic order on code points. -/
def strLe : List Char → List Char → Bool
  | [], _ => true
  | _ :: _, [] => false
  | a :: as, b :: bs =>
    if a.toNat < b.toNat then true
    else if b.toNat < a.toNat then false
    else strLe as bs

/-- Insertion of a row into a list ordered by username. -/
def insertRow (desc : Bool) (r : ScannedRow) : List ScannedRow → List ScannedRow
  | [] => [r]
  | x :: xs =>
    if (if desc then strLe x.username.data r.username.data
        else strLe r.username.data x.username.data)
    then r :: x :: xs
    else x :: insertRow desc r xs

/-- The rows ordered by username, ascending or descending. -/
def sortRows (desc : Bool) (rows : List ScannedRow) : List ScannedRow :=
  rows.foldr (insertRow desc) []

/-- The update-quota statement: sets the usage columns of the rows of `username`. -/
def MemDb.updateQuota (db : MemDb) (size files ts : Int) (username : String) : MemDb :=
  { db with users := db.users.map (fun r =>
      if r.username = username then
        { r with usedQuotaSize := size, usedQuotaFiles := files, lastQuotaScan := ts }
      else r) }

/-- Modelled from the spec: the statements of the query provider run on the
in-memory backend, as database/sql runs them. An `UPDATE` that matches no row
changes nothing and reports no error; a single-row query that matches no row
makes `Scan` report `sql.ErrNoRows`; the list statement orders by username,
filters on the username when one is bound, and applies offset and limit (a
negative one counts as zero). -/
def memDriver : Driver MemDb where
  prepare := fun db _ => db.prepareErr
  exec := fun db q args =>
    match db.execErr with
    | some e => (db, some e)
    | none =>
      match q, args with
      | Statement.updateQuota,
        [SqlValue.int size, SqlValue.int files, SqlValue.int ts, SqlValue.str username] =>
        (db.updateQuota size files ts username, none)
      | Statement.updateUser,
        [SqlValue.str pw, SqlValue.str pk, SqlValue.str hd, SqlValue.int uid, SqlValue.int gid,
         SqlValue.int ms, SqlValue.int qs, SqlValue.int qf, SqlValue.str perms,
         SqlValue.int ub, SqlValue.int dbw, SqlValue.int id] =>
        ({ db with users := db.users.map (fun r =>
            if r.id = id then
              { r with password := some pw, publicKey := some pk, homeDir := hd, uid := uid,
                       gid := gid, maxSessions := ms, quotaSize := qs, quotaFiles := qf,
                       permissions := some perms, uploadBandwidth := ub,
                       downloadBandwidth := dbw }
            else r) }, none)
      | _, _ => (db, some errBadArgs)
  scanUser := fun db q args =>
    match db.queryErr with
    | some e => { cols := zeroRow, err := some e }
    | none =>
      match q, args with
      | Statement.getUserByUsername, [SqlValue.str username] =>
        match db.users.find? (fun r => decide (r.username = username)) with
        | some r => { cols := r, err := none }
        | none => { cols := zeroRow, err := some errNoRows }
      | Statement.getUserByID, [SqlValue.int id] =>
        match db.users.find? (fun r => decide (r.id = id)) with
        | some r => { cols := r, err := none }
        | none => { cols := zeroRow, err := some errNoRows }
      | _, _ => { cols := zeroRow, err := some errBadArgs }
  scanQuota := fun db q args =>
    match db.queryErr with
    | some e => ((0, 0), some e)
    | none =>
      match q, args with
      | Statement.getQuota, [SqlValue.str username] =>
        match db.users.find? (fun r => decide (r.username = username)) with
        | some r => ((r.usedQuotaSize, r.usedQuotaFiles), none)
        | none => ((0, 0), some errNoRows)
      | _, _ => ((0, 0), some errBadArgs)
  query := fun db q args =>
    match db.queryErr with
    | some e => Except.error e
    | none =>
      match q, args with
      | Statement.getUsers order _, [SqlValue.str username, SqlValue.int limit, SqlValue.int offset] =>
        Except.ok ((((sortRows (decide (order = "DESC"))
          (db.users.filter (fun r => decide (r.username = username)))).drop offset.toNat).take
            limit.toNat).map (fun r => { cols := r, err := none }))
      | Statement.getUsers order _, [SqlValue.int limit, SqlValue.int offset] =>
        Except.ok ((((sortRows (decide (order = "DESC")) db.users).drop offset.toNat).take
            limit.toNat).map (fun r => { cols := r, err := none }))
      | _, _ => Except.error errBadArgs

/-- The error `bcrypt.ErrMismatchedHashAndPassword`. -/
def errBcryptMismatch : ExtError :=
  { pkg := "bcrypt", msg := "crypto/bcrypt: hashedPassword is not the hash of the given password" }

/-- Stand-ins for the collaborators: the scheme markers `$argon2id$` and `$2a$`,
a hash of a password being the marker followed by the password; an authorized
key line `ssh-rsa <blob>` whose wire bytes are `<blob>`; permission lists `[]`
and `["*"]`; a validation that rejects an empty username or home directory. -/
def toyPrims : Prims where
  argonPwdPrefix := "$argon2id$"
  bcryptPwdPrefix := "$2a$"
  argon2idComparePasswordAndHash := fun password hash =>
    (decide (hash = "$argon2id$" ++ password), none)
  bcryptCompareHashAndPassword := fun hash password =>
    if hash = "$2a$" ++ password then none else some errBcryptMismatch
  sshParseAuthorizedKey := fun text =>
    if stringsHasPrefix text "ssh-rsa " then Except.ok { marshal := String.mk (text.data.drop 8) }
    else Except.error { pkg := "ssh", msg := "ssh: no key found" }
  jsonUnmarshal := fun js =>
    if js = "[]" then Except.ok []
    else if js = "[\"*\"]" then Except.ok ["*"]
    else Except.error { pkg := "json", msg := "invalid character" }
  validateUser := fun u =>
    if u.Username = "" ∨ u.HomeDir = "" then
      (u, some (GoError.errorsNew "Mandatory parameters missing"))
    else (u, none)
  getPermissionsAsJSON := fun u =>
    if u.Permissions = [] then Except.ok "[]" else Except.ok "[\"*\"]"

/-- A stored row with the given identity, credentials and usage. -/
def mkRow (id : Int) (username : String) (password publicKey : Option String)
    (usedSize usedFiles : Int) : ScannedRow :=
  { zeroRow with
    id := id, username := username, password := password, publicKey := publicKey,
    homeDir := "/srv/" ++ username, permissions := some "[\"*\"]",
    usedQuotaSize := usedSize, usedQuotaFiles := usedFiles }

/-- A healthy in-memory database holding the given rows, with an empty journal. -/
def memWorld (rows : List ScannedRow) : World MemDb :=
  { db := { users := rows, prepareErr := none, execErr := none, queryErr := none },
    journal := [] }


/-! ## Quota ledger -/

/-- The function `sqlCommonGetUsedQuota`; the result is `(usedFiles, usedSize, err)`. -/
def sqlCommonGetUsedQuota {σ : Type} (d : Driver σ) (username : String) (w : World σ) :
    (Int × Int × Option GoError) × World σ :=
  match dbPrepare d Statement.getQuota w with
  | (some e, w1) => ((0, 0, some (GoError.ext e)), w1)
  | (none, w1) =>
    let r := stmtQueryRowQuota d Statement.getQuota [SqlValue.str username] w1
    match r.1.2 with
    | some e => ((0, 0, some (GoError.ext e)), r.2)
    | none => ((r.1.1.2, r.1.1.1, none), r.2)

/-- The part of the `Provider` interface that `sqlCommonUpdateQuota` calls. -/
structure Provider (σ : Type) where
  getUsedQuota : String → World σ → (Int × Int × Option GoError) × World σ

/-- Modelled from the spec: the `Provider` of an SQL backend, whose
`getUsedQuota` is the single read `sqlCommonGetUsedQuota`. The implementations
of `Provider` are not part of these sources. -/
def sqlProvider {σ : Type} (d : Driver σ) : Provider σ where
  getUsedQuota := sqlCommonGetUsedQuota d

/-- Lines 123 to 132 of `sqlCommonUpdateQuota` for one counter of `w` bits:
`used += add`, then `if used < 0 { used = 0 }`. -/
def addAndClamp (w : Nat) (used add : Int) : Int :=
  if wrap w (used + add) < 0 then 0 else wrap w (used + add)

/-- Lines 123 to 147 of `sqlCommonUpdateQuota`: what follows once the baseline
`(usedFiles, usedSize)` is fixed. -/
def updateQuotaFrom {σ : Type} (intSize : Nat) (d : Driver σ) (username : String)
    (filesAdd sizeAdd : Int) (now : Int) (usedFiles usedSize : Int) (w : World σ) :
    Option GoError × World σ :=
  let usedFiles := addAndClamp intSize usedFiles filesAdd
  let usedSize := addAndClamp 64 usedSize sizeAdd
  match dbPrepare d Statement.updateQuota w with
  | (some e, w1) => (some (GoError.ext e), w1)
  | (none, w1) =>
    let r := stmtExec d Statement.updateQuota
      [SqlValue.int usedSize, SqlValue.int usedFiles, SqlValue.int now, SqlValue.str username] w1
    (liftErr r.1, r.2)

/-- The function `sqlCommonUpdateQuota`. `intSize` is the width of Go `int`, `now`
the reading of the clock handed to `GetTimeAsMsSinceEpoch`. -/
def sqlCommonUpdateQuota {σ : Type} (intSize : Nat) (d : Driver σ) (p : Provider σ)
    (username : String) (filesAdd sizeAdd : Int) (reset : Bool) (now : Int) (w : World σ) :
    Option GoError × World σ :=
  if reset then
    updateQuotaFrom intSize d username filesAdd sizeAdd now 0 0 w
  else
    match p.getUsedQuota username w with
    | ((_, _, some err), w1) => (some err, w1)
    | ((usedFiles, usedSize, none), w1) =>
      updateQuotaFrom intSize d username filesAdd sizeAdd now usedFiles usedSize w1

/-- The counters `(files, size)` stored for `username`, if a row exists. -/
def storedQuota (db : MemDb) (username : String) : Option (Int × Int) :=
  (db.users.find? (fun r => decide (r.username = username))).map
    (fun r => (r.usedQuotaFiles, r.usedQuotaSize))

/-! ### Two calls with reset = false, step by step

Against the storage backend a call with `reset = false` is two operations: the
read of the baseline through the provider, and the write. Between the two the
call only holds the baseline in its local variables. -/

/-- The arguments of one `UpdateQuota` call with `reset = false`. -/
structure QuotaCall where
  username : String
  filesAdd : Int
  sizeAdd : Int
  now : Int

/-- Where a call stands: not started, baseline read into `usedFiles` and
`usedSize`, or returned. -/
inductive CallState where
  | start
  | haveBaseline (usedFiles usedSize : Int)
  | returned (err : Option GoError)
deriving DecidableEq, Repr

/-- One storage operation of a call: the read at line 118, or lines 123 to 147. -/
def callStep {σ : Type} (intSize : Nat) (d : Driver σ) (p : Provider σ) (c : QuotaCall) :
    CallState → World σ → CallState × World σ
  | CallState.start, w =>
    match p.getUsedQuota c.username w with
    | ((_, _, some err), w1) => (CallState.returned (some err), w1)
    | ((usedFiles, usedSize, none), w1) => (CallState.haveBaseline usedFiles usedSize, w1)
  | CallState.haveBaseline usedFiles usedSize, w =>
    let r := updateQuotaFrom intSize d c.username c.filesAdd c.sizeAdd c.now usedFiles usedSize w
    (CallState.returned r.1, r.2)
  | CallState.returned e, w => (CallState.returned e, w)

/-- Two calls on one storage backend. -/
structure Pair (σ : Type) where
  first : CallState
  second : CallState
  world : World σ

/-- The run of two calls under a schedule: `false` lets the first call perform
its next storage operation, `true` the second. -/
def runSchedule {σ : Type} (intSize : Nat) (d : Driver σ) (p : Provider σ)
    (c1 c2 : QuotaCall) : List Bool → Pair σ → Pair σ
  | [], s => s
  | false :: rest, s =>
    let r := callStep intSize d p c1 s.first s.world
    runSchedule intSize d p c1 c2 rest { s with first := r.1, world := r.2 }
  | true :: rest, s =>
    let r := callStep intSize d p c2 s.second s.world
    runSchedule intSize d p c1 c2 rest { s with second := r.1, world := r.2 }

/-- The six interleavings of two calls of two storage operations each. -/
def interleavings : List (List Bool) :=
  [[false, false, true, true], [true, true, false, false],
   [false, true, false, true], [true, false, false, true],
   [false, true, true, false], [true, false, true, false]]

/-- The counters stored for `username` after the two calls ran under `sched` on
the in-memory database `db`. -/
def finalQuota (intSize : Nat) (c1 c2 : QuotaCall) (sched : List Bool) (db : MemDb)
    (username : String) : Option (Int × Int) :=
  storedQuota (runSchedule intSize memDriver (sqlProvider memDriver) c1 c2 sched
    { first := CallState.start, second := CallState.start,
      world := { db := db, journal := [] } }).world.db username


/-- The in-memory database reports no fault. -/
def MemDb.Healthy (db : MemDb) : Prop :=
  db.prepareErr = none ∧ db.execErr = none ∧ db.queryErr = none

/-- A healthy database in which `amy` has 5 files and 50 bytes in use. -/
def quotaWorld0 : World MemDb := memWorld [mkRow 1 "amy" (some "pw") none 50 5]

/-- The first call of the composition scenario: `UpdateQuota(amy, 5, 1000, reset=true)`. -/
def quotaRun1 : Option GoError × World MemDb :=
  sqlCommonUpdateQuota 64 memDriver (sqlProvider memDriver) "amy" 5 1000 true 7 quotaWorld0

/-- The second call of the composition scenario, run after the first:
`UpdateQuota(amy, 2, 200, reset=false)`. -/
def quotaRun2 : Option GoError × World MemDb :=
  sqlCommonUpdateQuota 64 memDriver (sqlProvider memDriver) "amy" 2 200 false 8 quotaRun1.2


/-! ## User repository: listing and update -/

/-- Lines 256 and 257 of `sqlCommonGetUsers`: `u.Password = ""`, `u.PublicKey = ""`. -/
def hideCredentials (u : User) : User :=
  { u with Password := "", PublicKey := "" }

/-- The loop `for rows.Next() { ... }` of `sqlCommonGetUsers` over the outcomes of
`rows.Scan`, with `users` the slice built so far. -/
def getUsersLoop (P : Prims) : List ScanOutcome → List User → List User
  | [], users => users
  | sc :: rest, users =>
    match getUserFromDbRow P (RowArg.rows sc) with
    | (u, none) => getUsersLoop P rest (users ++ [hideCredentials u])
    | (_, some _) => users

/-- The arguments `sqlCommonGetUsers` binds to the list statement. -/
def getUsersArgs (limit offset : Int) (username : String) : List SqlValue :=
  if username.length > 0 then
    [SqlValue.str username, SqlValue.int limit, SqlValue.int offset]
  else
    [SqlValue.int limit, SqlValue.int offset]

/-- The function `sqlCommonGetUsers`. A nil slice is the empty list. -/
def sqlCommonGetUsers {σ : Type} (d : Driver σ) (P : Prims) (limit offset : Int)
    (order username : String) (w : World σ) : (List User × Option GoError) × World σ :=
  match dbPrepare d (Statement.getUsers order username) w with
  | (some e, w1) => (([], some (GoError.ext e)), w1)
  | (none, w1) =>
    let r := stmtQuery d (Statement.getUsers order username)
      (getUsersArgs limit offset username) w1
    match r.1 with
    | Except.error e => (([], some (GoError.ext e)), r.2)
    | Except.ok rows => ((getUsersLoop P rows [], none), r.2)

/-- The function `sqlCommonUpdateUser`. `validateUser` receives a pointer to the
copy `user` and may change it; the copy it leaves is the one persisted. -/
def sqlCommonUpdateUser {σ : Type} (d : Driver σ) (P : Prims) (user : User) (w : World σ) :
    Option GoError × World σ :=
  match P.validateUser user with
  | (_, some err) => (some err, w)
  | (user, none) =>
    match dbPrepare d Statement.updateUser w with
    | (some e, w1) => (some (GoError.ext e), w1)
    | (none, w1) =>
      match P.getPermissionsAsJSON user with
      | Except.error e => (some (GoError.ext e), w1)
      | Except.ok permissions =>
        let r := stmtExec d Statement.updateUser
          [SqlValue.str user.Password, SqlValue.str user.PublicKey, SqlValue.str user.HomeDir,
           SqlValue.int user.UID, SqlValue.int user.GID, SqlValue.int user.MaxSessions,
           SqlValue.int user.QuotaSize, SqlValue.int user.QuotaFiles, SqlValue.str permissions,
           SqlValue.int user.UploadBandwidth, SqlValue.int user.DownloadBandwidth,
           SqlValue.int user.ID] w1
        (liftErr r.1, r.2)

/-- A healthy database with the users `amy` (plaintext password, a public key)
and `bob` (bcrypt password, no key). -/
def twoUsers : World MemDb :=
  memWorld [mkRow 1 "amy" (some "pw") (some "ssh-rsa AAAB") 50 5,
            mkRow 2 "bob" (some "$2a$secret") none 0 0]

/-- A healthy database whose second row, in username order, carries a permission
list that does not decode. -/
def brokenRow : World MemDb :=
  memWorld [mkRow 1 "amy" (some "pw") none 50 5,
            { mkRow 2 "bob" (some "pw") none 0 0 with permissions := some "\x7b" },
            mkRow 3 "cat" (some "pw") none 0 0]

/-- The fault of a backend that refuses writes. -/
def errLocked : ExtError := { pkg := "sql", msg := "database is locked" }

/-- The database `twoUsers` with a backend whose `Exec` fails with `errLocked`. -/
def lockedUsers : World MemDb :=
  { db := { twoUsers.db with execErr := some errLocked }, journal := [] }

/-- A valid user record whose ID, 99, is the ID of no row of `twoUsers`. -/
def ghostUser : User :=
  { zeroUser with ID := 99, Username := "ghost", Password := "pw", HomeDir := "/srv/ghost" }

/-! ## Quota scan handler -/

/-- What `startQuotaScan` and the goroutine it starts do, in order. -/
inductive Event where
  | decodeJSON
  | userExists (username : String)
  | addQuotaScan (username : String)
  | sendAPIResponse (err : Option GoError) (message : String) (code : Nat)
  | scanDirContents (dir : String)
  | updateUserQuota (username : String) (numFiles size : Int) (reset : Bool)
  | removeQuotaScan (username : String)
  | loggerWarn
  | loggerDebug
deriving DecidableEq, Repr

/-- The outcomes of the collaborators of `startQuotaScan`: `render.DecodeJSON` on
the body, `dataprovider.UserExists`, `sftpd.AddQuotaScan`,
`utils.ScanDirContents` and `dataprovider.UpdateUserQuota`. -/
structure ApiEnv where
  decodeJSON : String → Except ExtError User
  userExists : String → User × Option GoError
  addQuotaScan : String → Bool
  scanDirContents : String → (Int × Int) × Option ExtError
  updateUserQuota : String → Int → Int → Bool → Option GoError

/-- The body of the goroutine started by `startQuotaScan` (lines 31 to 43). -/
def quotaScanTask (env : ApiEnv) (user : User) : List Event :=
  match env.scanDirContents user.HomeDir with
  | (_, some _) =>
    [Event.scanDirContents user.HomeDir, Event.loggerWarn,
     Event.removeQuotaScan user.Username]
  | ((numFiles, size), none) =>
    match env.updateUserQuota user.Username numFiles size true with
    | some _ =>
      [Event.scanDirContents user.HomeDir,
       Event.updateUserQuota user.Username numFiles size true,
       Event.loggerDebug, Event.loggerDebug, Event.removeQuotaScan user.Username]
    | none =>
      [Event.scanDirContents user.HomeDir,
       Event.updateUserQuota user.Username numFiles size true,
       Event.loggerDebug, Event.removeQuotaScan user.Username]

/-- A run of the handler: what it does before it returns, and the events of the
goroutine it started, if it started one. -/
structure HandlerRun where
  events : List Event
  task : Option (List Event)
deriving DecidableEq, Repr

/-- The function `startQuotaScan` on a request with the given body. -/
def startQuotaScan (env : ApiEnv) (body : String) : HandlerRun :=
  match env.decodeJSON body with
  | Except.error e =>
    { events := [Event.decodeJSON, Event.sendAPIResponse (some (GoError.ext e)) "" 400],
      task := none }
  | Except.ok u =>
    match env.userExists u.Username with
    | (_, some err) =>
      { events := [Event.decodeJSON, Event.userExists u.Username,
                   Event.sendAPIResponse (some err) "" 404],
        task := none }
    | (user, none) =>
      if env.addQuotaScan user.Username then
        { events := [Event.decodeJSON, Event.userExists u.Username,
                     Event.addQuotaScan user.Username,
                     Event.sendAPIResponse none "Scan started" 201],
          task := some (quotaScanTask env user) }
      else
        { events := [Event.decodeJSON, Event.userExists u.Username,
                     Event.addQuotaScan user.Username,
                     Event.sendAPIResponse none "Another scan is already in progress" 409],
          task := none }

/-- The event is a call of the directory walker. -/
def Event.isScan : Event → Bool
  | Event.scanDirContents _ => true
  | _ => false

/-- The event is a call of `UpdateUserQuota`. -/
def Event.isUpdate : Event → Bool
  | Event.updateUserQuota _ _ _ _ => true
  | _ => false

/-- The event is a call of `RemoveQuotaScan`. -/
def Event.isRemove : Event → Bool
  | Event.removeQuotaScan _ => true
  | _ => false

/-- Stand-ins for the collaborators of the handler: the body is the username,
`amy` and `bob` exist, `bob` is already being scanned, `/srv/amy` holds 3 files
and 300 bytes. -/
def toyApi : ApiEnv where
  decodeJSON := fun body =>
    if body = "" then Except.error { pkg := "json", msg := "EOF" }
    else Except.ok { zeroUser with Username := body }
  userExists := fun username =>
    if username = "amy" ∨ username = "bob" then
      ({ zeroUser with Username := username, HomeDir := "/srv/" ++ username }, none)
    else (zeroUser, some (GoError.ext errNoRows))
  addQuotaScan := fun username => decide (username ≠ "bob")
  scanDirContents := fun dir =>
    if dir = "/srv/amy" then ((3, 300), none)
    else ((0, 0), some { pkg := "os", msg := "no such file or directory" })
  updateUserQuota := fun _ _ _ _ => none

/-! ## Theorems: credential verification -/

theorem length_eq_zero_iff (s : String) : s.length = 0 ↔ s = "" := by
  constructor
  · intro h
    cases s with
    | mk l =>
      cases l with
      | nil => rfl
      | cons a t => simp [String.length] at h
  · intro h
    subst h
    rfl

theorem passOk_core {σ : Type} (d : Driver σ) (P : Prims)
    (username password : String) (w : World σ) :
    (sqlCommonValidateUserAndPass d P username password w).1.2 = none ↔
      (password ≠ "" ∧ (getUserByUsername d P username w).1.2 = none ∧
        ((stringsHasPrefix (getUserByUsername d P username w).1.1.Password P.argonPwdPrefix = true ∧
            P.argon2idComparePasswordAndHash password
              (getUserByUsername d P username w).1.1.Password = (true, none)) ∨
         (stringsHasPrefix (getUserByUsername d P username w).1.1.Password P.argonPwdPrefix = false ∧
            stringsHasPrefix (getUserByUsername d P username w).1.1.Password P.bcryptPwdPrefix = true ∧
            P.bcryptCompareHashAndPassword
              (getUserByUsername d P username w).1.1.Password password = none) ∨
         (stringsHasPrefix (getUserByUsername d P username w).1.1.Password P.argonPwdPrefix = false ∧
            stringsHasPrefix (getUserByUsername d P username w).1.1.Password P.bcryptPwdPrefix = false ∧
            (getUserByUsername d P username w).1.1.Password = password))) := by
  unfold sqlCommonValidateUserAndPass
  by_cases hp : password = ""
  · subst hp
    simp [String.length]
  · have hl : ¬ password.length = 0 := fun h => hp ((length_eq_zero_iff _).1 h)
    rw [if_neg hl]
    rcases hg : getUserByUsername d P username w with ⟨⟨user, e⟩, w1⟩
    cases e with
    | some err => simp [hp]
    | none =>
      simp only [hp, ne_eq, not_false_eq_true, true_and]
      cases ha : stringsHasPrefix user.Password P.argonPwdPrefix
      · cases hb : stringsHasPrefix user.Password P.bcryptPwdPrefix
        · by_cases heq : user.Password = password <;> simp [heq]
        · cases hc : P.bcryptCompareHashAndPassword user.Password password <;> simp
      · rcases hc : P.argon2idComparePasswordAndHash password user.Password with ⟨m, e⟩
        cases e <;> cases m <;> simp

theorem hasPrefix_empty (p : String) (hp : p ≠ "") : stringsHasPrefix "" p = false := by
  cases p with
  | mk l =>
    cases l with
    | nil => exact absurd rfl hp
    | cons a t => rfl

theorem validateUserAndPass_empty {σ : Type} (d : Driver σ) (P : Prims)
    (username : String) (w : World σ) :
    sqlCommonValidateUserAndPass d P username "" w = ((zeroUser, some credentialsEmpty), w) := by
  simp [sqlCommonValidateUserAndPass, String.length]

/-- C4: `sqlCommonValidateUserAndPass` returns a nil error exactly when the password
is non-empty, the lookup succeeds and the scheme selected by the stored password
accepts: argon2 marker and the argon2 comparison answers match with no error;
bcrypt marker (and no argon2 marker) and the bcrypt comparison answers no error;
neither marker and the stored value equals the password. An empty password is
rejected for every storage state, with no call on the database handle; with
non-empty scheme markers, a stored empty password never authenticates. -/
theorem validateUserAndPass_ok_iff {σ : Type} (d : Driver σ) (P : Prims)
    (username password : String) (w : World σ) :
    ((sqlCommonValidateUserAndPass d P username password w).1.2 = none ↔
      (password ≠ "" ∧ (getUserByUsername d P username w).1.2 = none ∧
        ((stringsHasPrefix (getUserByUsername d P username w).1.1.Password P.argonPwdPrefix = true ∧
            P.argon2idComparePasswordAndHash password
              (getUserByUsername d P username w).1.1.Password = (true, none)) ∨
         (stringsHasPrefix (getUserByUsername d P username w).1.1.Password P.argonPwdPrefix = false ∧
            stringsHasPrefix (getUserByUsername d P username w).1.1.Password P.bcryptPwdPrefix = true ∧
            P.bcryptCompareHashAndPassword
              (getUserByUsername d P username w).1.1.Password password = none) ∨
         (stringsHasPrefix (getUserByUsername d P username w).1.1.Password P.argonPwdPrefix = false ∧
            stringsHasPrefix (getUserByUsername d P username w).1.1.Password P.bcryptPwdPrefix = false ∧
            (getUserByUsername d P username w).1.1.Password = password)))) ∧
    sqlCommonValidateUserAndPass d P username "" w = ((zeroUser, some credentialsEmpty), w) ∧
    (P.argonPwdPrefix ≠ "" → P.bcryptPwdPrefix ≠ "" →
      (getUserByUsername d P username w).1.1.Password = "" →
      (sqlCommonValidateUserAndPass d P username password w).1.2 ≠ none) := by
  refine ⟨passOk_core d P username password w,
    validateUserAndPass_empty d P username w, ?_⟩
  intro ha hb hs hok
  rw [passOk_core, hs] at hok
  obtain ⟨hp, _, h | h | h⟩ := hok
  · rw [hasPrefix_empty _ ha] at h
    exact absurd h.1 (by simp)
  · rw [hasPrefix_empty _ hb] at h
    exact absurd h.2.1 (by simp)
  · exact hp h.2.2.symm

/-- C4, on the in-memory database: the stored plaintext password authenticates,
the empty password does not, and a row with an empty password never does. -/
theorem validateUserAndPass_ok_iff_witness :
    (sqlCommonValidateUserAndPass memDriver toyPrims "amy" "pw"
        (memWorld [mkRow 1 "amy" (some "pw") none 0 0])).1.2 = none ∧
    (sqlCommonValidateUserAndPass memDriver toyPrims "amy" ""
        (memWorld [mkRow 1 "amy" (some "") none 0 0])).1.2 = some credentialsEmpty ∧
    (sqlCommonValidateUserAndPass memDriver toyPrims "amy" "pw"
        (memWorld [mkRow 1 "amy" (some "") none 0 0])).1.2 ≠ none :=
  ⟨(validateUserAndPass_ok_iff memDriver toyPrims "amy" "pw"
      (memWorld [mkRow 1 "amy" (some "pw") none 0 0])).1.2
      ⟨by decide, by decide, Or.inr (Or.inr ⟨by decide, by decide, by decide⟩)⟩,
   by
    rw [(validateUserAndPass_ok_iff memDriver toyPrims "amy" "pw"
      (memWorld [mkRow 1 "amy" (some "") none 0 0])).2.1],
   (validateUserAndPass_ok_iff memDriver toyPrims "amy" "pw"
      (memWorld [mkRow 1 "amy" (some "") none 0 0])).2.2 (by decide) (by decide) (by decide)⟩

/-- C5 fails in the bcrypt branch: for the existing user `bob`, whose stored
password carries the bcrypt marker, a wrong non-empty password makes
`sqlCommonValidateUserAndPass` return the error of the bcrypt comparison, which
is not the `Invalid credentials` error. -/
theorem bcrypt_mismatch_returns_bcrypt_error :
    (getUserByUsername memDriver toyPrims "bob"
        (memWorld [mkRow 1 "bob" (some "$2a$secret") none 0 0])).1.2 = none ∧
    toyPrims.bcryptCompareHashAndPassword "$2a$secret" "wrong" = some errBcryptMismatch ∧
    (sqlCommonValidateUserAndPass memDriver toyPrims "bob" "wrong"
        (memWorld [mkRow 1 "bob" (some "$2a$secret") none 0 0])).1.2
      = some (GoError.ext errBcryptMismatch) ∧
    (sqlCommonValidateUserAndPass memDriver toyPrims "bob" "wrong"
        (memWorld [mkRow 1 "bob" (some "$2a$secret") none 0 0])).1.2
      ≠ some invalidCredentials := by
  decide

/-- C5, amended: for an existing user and a non-empty password, an argon2
comparison that answers no match (with no error) and a plaintext inequality yield
the `Invalid credentials` error; in the bcrypt branch every error of the bcrypt
comparison, a mismatch included, is returned as it is, and it is not the
`Invalid credentials` error. -/
theorem validateUserAndPass_mismatch_errors {σ : Type} (d : Driver σ) (P : Prims)
    (username password : String) (w w1 : World σ) (user : User)
    (hp : password ≠ "")
    (hg : getUserByUsername d P username w = ((user, none), w1)) :
    (stringsHasPrefix user.Password P.argonPwdPrefix = true →
      P.argon2idComparePasswordAndHash password user.Password = (false, none) →
      (sqlCommonValidateUserAndPass d P username password w).1.2 = some invalidCredentials) ∧
    (stringsHasPrefix user.Password P.argonPwdPrefix = false →
      stringsHasPrefix user.Password P.bcryptPwdPrefix = true →
      ∀ e, P.bcryptCompareHashAndPassword user.Password password = some e →
        (sqlCommonValidateUserAndPass d P username password w).1.2 = some (GoError.ext e) ∧
        GoError.ext e ≠ invalidCredentials) ∧
    (stringsHasPrefix user.Password P.argonPwdPrefix = false →
      stringsHasPrefix user.Password P.bcryptPwdPrefix = false →
      user.Password ≠ password →
      (sqlCommonValidateUserAndPass d P username password w).1.2 = some invalidCredentials) := by
  have hl : ¬ password.length = 0 := fun h => hp ((length_eq_zero_iff _).1 h)
  unfold sqlCommonValidateUserAndPass
  rw [if_neg hl, hg]
  refine ⟨?_, ?_, ?_⟩
  · intro ha hc
    simp [ha, hc]
  · intro ha hb e hc
    simp [ha, hb, hc, invalidCredentials]
  · intro ha hb hne
    simp [ha, hb, hne]

/-- C5, amended, on the in-memory database: `bob` has a bcrypt password and
presents a wrong one; `amy` has a plaintext password and presents a wrong one. -/
theorem validateUserAndPass_mismatch_errors_witness :
    ((sqlCommonValidateUserAndPass memDriver toyPrims "bob" "wrong"
        (memWorld [mkRow 1 "bob" (some "$2a$secret") none 0 0])).1.2
      = some (GoError.ext errBcryptMismatch) ∧
      GoError.ext errBcryptMismatch ≠ invalidCredentials) ∧
    (sqlCommonValidateUserAndPass memDriver toyPrims "amy" "wrong"
        (memWorld [mkRow 1 "amy" (some "pw") none 0 0])).1.2 = some invalidCredentials :=
  ⟨(validateUserAndPass_mismatch_errors memDriver toyPrims "bob" "wrong"
      (memWorld [mkRow 1 "bob" (some "$2a$secret") none 0 0]) _ _ (by decide) rfl).2.1
      (by decide) (by decide) errBcryptMismatch (by decide),
   (validateUserAndPass_mismatch_errors memDriver toyPrims "amy" "wrong"
      (memWorld [mkRow 1 "amy" (some "pw") none 0 0]) _ _ (by decide) rfl).2.2
      (by decide) (by decide) (by decide)⟩

/-- C6 fails at the empty key: `bob` exists and stores no public key, yet for the
presented key `""` `sqlCommonValidateUserAndPubKey` returns the error
`Credentials cannot be null or empty` of lines 72 to 74, which is not the
`Invalid credentials` error. -/
theorem empty_key_not_invalidCredentials :
    (getUserByUsername memDriver toyPrims "bob" twoUsers).1.2 = none ∧
    (getUserByUsername memDriver toyPrims "bob" twoUsers).1.1.PublicKey = "" ∧
    (sqlCommonValidateUserAndPubKey memDriver toyPrims "bob" "" twoUsers).1.2
      = some credentialsEmpty ∧
    (sqlCommonValidateUserAndPubKey memDriver toyPrims "bob" "" twoUsers).1.2
      ≠ some invalidCredentials := by
  decide

/-- C6, amended: `sqlCommonValidateUserAndPubKey` returns a nil error exactly when
the presented key is non-empty, the lookup succeeds, the stored key is non-empty
and parses, and the wire bytes of the parsed key equal the presented bytes. For
every non-empty presented key and an existing user: no stored key yields
`Invalid credentials`, a byte difference yields `Invalid credentials`, and a parse
failure yields the error of the parser, which is not `Invalid credentials`. An
empty presented key is turned away before any lookup with the error
`Credentials cannot be null or empty`, so a user with no stored key is rejected
whatever is presented. -/
theorem validateUserAndPubKey_ok_iff {σ : Type} (d : Driver σ) (P : Prims)
    (username pubKey : String) (w : World σ) :
    ((sqlCommonValidateUserAndPubKey d P username pubKey w).1.2 = none ↔
      (pubKey ≠ "" ∧ (getUserByUsername d P username w).1.2 = none ∧
        (getUserByUsername d P username w).1.1.PublicKey ≠ "" ∧
        ∃ k, P.sshParseAuthorizedKey (getUserByUsername d P username w).1.1.PublicKey
              = Except.ok k ∧ k.marshal = pubKey)) ∧
    (pubKey ≠ "" → (getUserByUsername d P username w).1.2 = none →
      (getUserByUsername d P username w).1.1.PublicKey = "" →
      (sqlCommonValidateUserAndPubKey d P username pubKey w).1.2 = some invalidCredentials) ∧
    (pubKey ≠ "" → (getUserByUsername d P username w).1.2 = none →
      (getUserByUsername d P username w).1.1.PublicKey ≠ "" →
      ∀ k, P.sshParseAuthorizedKey (getUserByUsername d P username w).1.1.PublicKey
            = Except.ok k → k.marshal ≠ pubKey →
      (sqlCommonValidateUserAndPubKey d P username pubKey w).1.2 = some invalidCredentials) ∧
    (pubKey ≠ "" → (getUserByUsername d P username w).1.2 = none →
      (getUserByUsername d P username w).1.1.PublicKey ≠ "" →
      ∀ e, P.sshParseAuthorizedKey (getUserByUsername d P username w).1.1.PublicKey
            = Except.error e →
      (sqlCommonValidateUserAndPubKey d P username pubKey w).1.2 = some (GoError.ext e) ∧
      GoError.ext e ≠ invalidCredentials) ∧
    sqlCommonValidateUserAndPubKey d P username "" w = ((zeroUser, some credentialsEmpty), w) ∧
    ((getUserByUsername d P username w).1.1.PublicKey = "" →
      (sqlCommonValidateUserAndPubKey d P username pubKey w).1.2 ≠ none) := by
  unfold sqlCommonValidateUserAndPubKey
  refine ⟨?_, ?_, ?_, ?_, ?_, ?_⟩
  · by_cases hp : pubKey = ""
    · subst hp
      simp [String.length]
    · have hl : ¬ pubKey.length = 0 := fun h => hp ((length_eq_zero_iff _).1 h)
      rw [if_neg hl]
      rcases hg : getUserByUsername d P username w with ⟨⟨user, e⟩, w1⟩
      cases e with
      | some err => simp [hp]
      | none =>
        simp only [hp, ne_eq, not_false_eq_true, true_and]
        by_cases hk : user.PublicKey = ""
        · simp [hk, String.length]
        · have hk2 : user.PublicKey.length > 0 :=
            Nat.pos_of_ne_zero (fun h => hk ((length_eq_zero_iff _).1 h))
          cases hparse : P.sshParseAuthorizedKey user.PublicKey with
          | error e => simp [hk, hk2]
          | ok k =>
            by_cases hm : k.marshal = pubKey <;> simp [hk, hk2, hm]
  · intro hp hok hk
    have hl : ¬ pubKey.length = 0 := fun h => hp ((length_eq_zero_iff _).1 h)
    rw [if_neg hl]
    rcases hg : getUserByUsername d P username w with ⟨⟨user, e⟩, w1⟩
    rw [hg] at hok hk
    simp only at hok hk
    subst hok
    simp [hk, String.length]
  · intro hp hok hk k hparse hm
    have hl : ¬ pubKey.length = 0 := fun h => hp ((length_eq_zero_iff _).1 h)
    rw [if_neg hl]
    rcases hg : getUserByUsername d P username w with ⟨⟨user, e⟩, w1⟩
    rw [hg] at hok hk hparse
    simp only at hok hk hparse
    subst hok
    have hk2 : user.PublicKey.length > 0 :=
      Nat.pos_of_ne_zero (fun h => hk ((length_eq_zero_iff _).1 h))
    simp [hk2, hparse, hm]
  · intro hp hok hk e hparse
    have hl : ¬ pubKey.length = 0 := fun h => hp ((length_eq_zero_iff _).1 h)
    rw [if_neg hl]
    rcases hg : getUserByUsername d P username w with ⟨⟨user, e0⟩, w1⟩
    rw [hg] at hok hk hparse
    simp only at hok hk hparse
    subst hok
    have hk2 : user.PublicKey.length > 0 :=
      Nat.pos_of_ne_zero (fun h => hk ((length_eq_zero_iff _).1 h))
    simp [hk2, hparse, invalidCredentials]
  · simp [String.length]
  · intro hk
    by_cases hp : pubKey = ""
    · subst hp
      simp [String.length]
    · have hl : ¬ pubKey.length = 0 := fun h => hp ((length_eq_zero_iff _).1 h)
      rw [if_neg hl]
      rcases hg : getUserByUsername d P username w with ⟨⟨user, e⟩, w1⟩
      rw [hg] at hk
      simp only at hk
      cases e with
      | some err => simp
      | none => simp [hk, String.length]

/-- C6, amended, on the in-memory database: `amy` stores the key line `ssh-rsa AAAB`; the
bytes `AAAB` are accepted and `AAAC` are rejected; `bob` stores no key; `eve`
stores a line that does not parse. -/
theorem validateUserAndPubKey_ok_iff_witness :
    (sqlCommonValidateUserAndPubKey memDriver toyPrims "amy" "AAAB"
        (memWorld [mkRow 1 "amy" none (some "ssh-rsa AAAB") 0 0])).1.2 = none ∧
    (sqlCommonValidateUserAndPubKey memDriver toyPrims "amy" "AAAC"
        (memWorld [mkRow 1 "amy" none (some "ssh-rsa AAAB") 0 0])).1.2
      = some invalidCredentials ∧
    (sqlCommonValidateUserAndPubKey memDriver toyPrims "bob" "AAAB"
        (memWorld [mkRow 2 "bob" (some "pw") none 0 0])).1.2 = some invalidCredentials ∧
    (sqlCommonValidateUserAndPubKey memDriver toyPrims "eve" "AAAB"
        (memWorld [mkRow 3 "eve" none (some "garbage") 0 0])).1.2
      = some (GoError.ext { pkg := "ssh", msg := "ssh: no key found" }) :=
  ⟨(validateUserAndPubKey_ok_iff memDriver toyPrims "amy" "AAAB"
      (memWorld [mkRow 1 "amy" none (some "ssh-rsa AAAB") 0 0])).1.2
      ⟨by decide, by decide, by decide, ⟨{ marshal := "AAAB" }, rfl, by decide⟩⟩,
   (validateUserAndPubKey_ok_iff memDriver toyPrims "amy" "AAAC"
      (memWorld [mkRow 1 "amy" none (some "ssh-rsa AAAB") 0 0])).2.2.1
      (by decide) (by decide) (by decide) { marshal := "AAAB" } rfl (by decide),
   (validateUserAndPubKey_ok_iff memDriver toyPrims "bob" "AAAB"
      (memWorld [mkRow 2 "bob" (some "pw") none 0 0])).2.1
      (by decide) (by decide) (by decide),
   ((validateUserAndPubKey_ok_iff memDriver toyPrims "eve" "AAAB"
      (memWorld [mkRow 3 "eve" none (some "garbage") 0 0])).2.2.2.1
      (by decide) (by decide) (by decide) _ rfl).1⟩

/-! ## Theorems: quota ledger -/

theorem wrap_of_inRange (w : Nat) (hw : 0 < w) (x : Int) (h : inRange w x) : wrap w x = x := by
  obtain ⟨h1, h2⟩ := h
  have hpow : (2 : Int) ^ w = 2 * 2 ^ (w - 1) := by
    have : w = (w - 1) + 1 := by omega
    conv_lhs => rw [this]
    rw [pow_succ]
    ring
  unfold wrap
  rw [Int.emod_eq_of_lt (by omega) (by omega)]
  omega

theorem addAndClamp_of_inRange (w : Nat) (hw : 0 < w) (used add : Int)
    (h : inRange w (used + add)) : addAndClamp w used add = max 0 (used + add) := by
  unfold addAndClamp
  rw [wrap_of_inRange w hw _ h]
  split
  · rw [max_eq_left (by omega)]
  · rw [max_eq_right (by omega)]

theorem addAndClamp_nonneg (w : Nat) (used add : Int) : 0 ≤ addAndClamp w used add := by
  unfold addAndClamp
  split
  · exact le_refl 0
  · omega

theorem updateQuotaFrom_ok {σ : Type} (intSize : Nat) (d : Driver σ) (username : String)
    (filesAdd sizeAdd now usedFiles usedSize : Int) (w : World σ)
    (hprep : d.prepare w.db Statement.updateQuota = none)
    (hexec : (d.exec w.db Statement.updateQuota
      [SqlValue.int (addAndClamp 64 usedSize sizeAdd),
       SqlValue.int (addAndClamp intSize usedFiles filesAdd),
       SqlValue.int now, SqlValue.str username]).2 = none) :
    updateQuotaFrom intSize d username filesAdd sizeAdd now usedFiles usedSize w =
      (none,
       { db := (d.exec w.db Statement.updateQuota
           [SqlValue.int (addAndClamp 64 usedSize sizeAdd),
            SqlValue.int (addAndClamp intSize usedFiles filesAdd),
            SqlValue.int now, SqlValue.str username]).1,
         journal := w.journal ++ [SqlCall.prepare Statement.updateQuota,
           SqlCall.exec Statement.updateQuota
             [SqlValue.int (addAndClamp 64 usedSize sizeAdd),
              SqlValue.int (addAndClamp intSize usedFiles filesAdd),
              SqlValue.int now, SqlValue.str username]] }) := by
  simp [updateQuotaFrom, dbPrepare, stmtExec, hprep, hexec, liftErr]

/-- C1: when the read of the baseline (made only if `reset` is false) and the
write succeed and baseline plus delta fits the counter type,
`sqlCommonUpdateQuota` returns a nil error and hands to the update statement
exactly `size = max 0 (baseSize + sizeAdd)` and `files = max 0 (baseFiles + filesAdd)`;
with `reset` the baseline is `(0, 0)` and no read is made. -/
theorem updateQuota_writes_sum {σ : Type} (intSize : Nat) (d : Driver σ) (p : Provider σ)
    (username : String) (filesAdd sizeAdd : Int) (reset : Bool) (now : Int)
    (w w1 : World σ) (baseFiles baseSize : Int)
    (hw : 0 < intSize)
    (hread : (reset = true ∧ baseFiles = 0 ∧ baseSize = 0 ∧ w1 = w) ∨
      (reset = false ∧ p.getUsedQuota username w = ((baseFiles, baseSize, none), w1)))
    (hprep : d.prepare w1.db Statement.updateQuota = none)
    (hexec : (d.exec w1.db Statement.updateQuota
      [SqlValue.int (max 0 (baseSize + sizeAdd)), SqlValue.int (max 0 (baseFiles + filesAdd)),
       SqlValue.int now, SqlValue.str username]).2 = none)
    (hf : inRange intSize (baseFiles + filesAdd))
    (hs : inRange 64 (baseSize + sizeAdd)) :
    sqlCommonUpdateQuota intSize d p username filesAdd sizeAdd reset now w =
      (none,
       { db := (d.exec w1.db Statement.updateQuota
           [SqlValue.int (max 0 (baseSize + sizeAdd)), SqlValue.int (max 0 (baseFiles + filesAdd)),
            SqlValue.int now, SqlValue.str username]).1,
         journal := w1.journal ++ [SqlCall.prepare Statement.updateQuota,
           SqlCall.exec Statement.updateQuota
             [SqlValue.int (max 0 (baseSize + sizeAdd)),
              SqlValue.int (max 0 (baseFiles + filesAdd)),
              SqlValue.int now, SqlValue.str username]] }) := by
  have hcf := addAndClamp_of_inRange intSize hw baseFiles filesAdd hf
  have hcs := addAndClamp_of_inRange 64 (by decide) baseSize sizeAdd hs
  rw [← hcf, ← hcs] at hexec ⊢
  unfold sqlCommonUpdateQuota
  rcases hread with ⟨hr, h1, h2, h3⟩ | ⟨hr, hg⟩
  · subst hr h1 h2 h3
    simp only [if_true]
    exact updateQuotaFrom_ok intSize d username filesAdd sizeAdd now 0 0 w1 hprep hexec
  · subst hr
    simp only [Bool.false_eq_true, if_false, hg]
    exact updateQuotaFrom_ok intSize d username filesAdd sizeAdd now baseFiles baseSize w1
      hprep hexec

/-- C1, the composition scenario on the in-memory database: `reset=true` with
`(5, 1000)` followed by `reset=false` with `(2, 200)` returns nil twice and leaves
`(7, 1200)` stored. -/
theorem updateQuota_writes_sum_witness :
    quotaRun1.1 = none ∧ storedQuota quotaRun1.2.db "amy" = some (5, 1000) ∧
    quotaRun2.1 = none ∧ storedQuota quotaRun2.2.db "amy" = some (7, 1200) :=
  ⟨congrArg Prod.fst
      (updateQuota_writes_sum 64 memDriver (sqlProvider memDriver) "amy" 5 1000 true 7
        quotaWorld0 quotaWorld0 0 0 (by decide) (Or.inl ⟨rfl, rfl, rfl, rfl⟩) (by decide)
        (by decide) (by unfold inRange; decide) (by unfold inRange; decide)),
   (congrArg (fun r => storedQuota r.2.db "amy")
      (updateQuota_writes_sum 64 memDriver (sqlProvider memDriver) "amy" 5 1000 true 7
        quotaWorld0 quotaWorld0 0 0 (by decide) (Or.inl ⟨rfl, rfl, rfl, rfl⟩) (by decide)
        (by decide) (by unfold inRange; decide) (by unfold inRange; decide))).trans (by decide),
   congrArg Prod.fst
      (updateQuota_writes_sum 64 memDriver (sqlProvider memDriver) "amy" 2 200 false 8
        quotaRun1.2 (sqlCommonGetUsedQuota memDriver "amy" quotaRun1.2).2 5 1000 (by decide)
        (Or.inr ⟨rfl, rfl⟩) (by decide)
        (by decide) (by unfold inRange; decide) (by unfold inRange; decide)),
   (congrArg (fun r => storedQuota r.2.db "amy")
      (updateQuota_writes_sum 64 memDriver (sqlProvider memDriver) "amy" 2 200 false 8
        quotaRun1.2 (sqlCommonGetUsedQuota memDriver "amy" quotaRun1.2).2 5 1000 (by decide)
        (Or.inr ⟨rfl, rfl⟩) (by decide)
        (by decide) (by unfold inRange; decide) (by unfold inRange; decide))).trans (by decide)⟩

theorem updateQuotaFrom_journal {σ : Type} (intSize : Nat) (d : Driver σ) (username : String)
    (filesAdd sizeAdd now usedFiles usedSize : Int) (w : World σ) :
    (updateQuotaFrom intSize d username filesAdd sizeAdd now usedFiles usedSize w).2.journal
        = w.journal ++ [SqlCall.prepare Statement.updateQuota] ∨
    ∃ size files : Int, 0 ≤ size ∧ 0 ≤ files ∧
      (updateQuotaFrom intSize d username filesAdd sizeAdd now usedFiles usedSize w).2.journal
        = w.journal ++ [SqlCall.prepare Statement.updateQuota,
            SqlCall.exec Statement.updateQuota
              [SqlValue.int size, SqlValue.int files, SqlValue.int now,
               SqlValue.str username]] := by
  unfold updateQuotaFrom
  cases hprep : d.prepare w.db Statement.updateQuota with
  | some e =>
    left
    simp [dbPrepare, hprep]
  | none =>
    right
    exact ⟨addAndClamp 64 usedSize sizeAdd, addAndClamp intSize usedFiles filesAdd,
      addAndClamp_nonneg _ _ _, addAndClamp_nonneg _ _ _, by simp [dbPrepare, stmtExec, hprep]⟩

/-- C2: for every baseline, delta and value of `reset`, wrap-around included, the
calls `sqlCommonUpdateQuota` adds to the journal after the read of the baseline are
none (the read failed), the `Prepare` alone (it failed), or the `Prepare` and one
`Exec` of the update statement whose size and files arguments are both
non-negative. On stored usage (5 files, 50 bytes), deltas `(-100, -100)` with
`reset=false` hand `(0, 0)` to the write and leave `(0, 0)` stored. -/
theorem updateQuota_never_writes_negative {σ : Type} (intSize : Nat) (d : Driver σ)
    (p : Provider σ) (username : String) (filesAdd sizeAdd : Int) (reset : Bool) (now : Int)
    (w : World σ) :
    ((sqlCommonUpdateQuota intSize d p username filesAdd sizeAdd reset now w).2.journal
        = (if reset then w else (p.getUsedQuota username w).2).journal ∨
     (sqlCommonUpdateQuota intSize d p username filesAdd sizeAdd reset now w).2.journal
        = (if reset then w else (p.getUsedQuota username w).2).journal
            ++ [SqlCall.prepare Statement.updateQuota] ∨
     ∃ size files : Int, 0 ≤ size ∧ 0 ≤ files ∧
      (sqlCommonUpdateQuota intSize d p username filesAdd sizeAdd reset now w).2.journal
        = (if reset then w else (p.getUsedQuota username w).2).journal
            ++ [SqlCall.prepare Statement.updateQuota,
                SqlCall.exec Statement.updateQuota
                  [SqlValue.int size, SqlValue.int files, SqlValue.int now,
                   SqlValue.str username]]) ∧
    (sqlCommonUpdateQuota 64 memDriver (sqlProvider memDriver) "amy" (-100) (-100) false 7
        quotaWorld0).2.journal
      = [SqlCall.prepare Statement.getQuota,
         SqlCall.queryRow Statement.getQuota [SqlValue.str "amy"],
         SqlCall.prepare Statement.updateQuota,
         SqlCall.exec Statement.updateQuota
           [SqlValue.int 0, SqlValue.int 0, SqlValue.int 7, SqlValue.str "amy"]] ∧
    storedQuota (sqlCommonUpdateQuota 64 memDriver (sqlProvider memDriver) "amy" (-100) (-100)
        false 7 quotaWorld0).2.db "amy" = some (0, 0) := by
  refine ⟨?_, by decide, by decide⟩
  unfold sqlCommonUpdateQuota
  cases reset with
  | true =>
    simp only [if_true]
    exact Or.inr (updateQuotaFrom_journal intSize d username filesAdd sizeAdd now 0 0 w)
  | false =>
    simp only [Bool.false_eq_true, if_false]
    rcases hg : p.getUsedQuota username w with ⟨⟨usedFiles, usedSize, e⟩, w1⟩
    cases e with
    | some err => exact Or.inl rfl
    | none =>
      exact Or.inr
        (updateQuotaFrom_journal intSize d username filesAdd sizeAdd now usedFiles usedSize w1)

theorem callStep_twice {σ : Type} (intSize : Nat) (d : Driver σ) (p : Provider σ)
    (c : QuotaCall) (w : World σ) :
    callStep intSize d p c (callStep intSize d p c CallState.start w).1
        (callStep intSize d p c CallState.start w).2
      = (CallState.returned
          (sqlCommonUpdateQuota intSize d p c.username c.filesAdd c.sizeAdd false c.now w).1,
         (sqlCommonUpdateQuota intSize d p c.username c.filesAdd c.sizeAdd false c.now w).2) := by
  unfold sqlCommonUpdateQuota
  simp only [Bool.false_eq_true, if_false]
  rcases hg : p.getUsedQuota c.username w with ⟨⟨usedFiles, usedSize, e⟩, w1⟩
  cases e <;> simp [callStep, hg]

theorem interleavings_complete (sched : List Bool)
    (h1 : sched.count false = 2) (h2 : sched.count true = 2) : sched ∈ interleavings := by
  have hlen : sched.length = 4 := by
    have := List.length_eq_countP_add_countP (fun b => b == false) sched
    have h3 : List.countP (fun b => b == false) sched = 2 := by
      simpa [List.count] using h1
    have h4 : List.countP (fun a => ¬(a == false) = true) sched = 2 := by
      have : List.countP (fun a => decide (¬(a == false) = true)) sched
          = List.countP (fun b => b == true) sched := by
        congr 1
        funext b
        cases b <;> rfl
      rw [this]
      simpa [List.count] using h2
    omega
  match sched, hlen with
  | [a, b, c, e], _ =>
    revert h1 h2
    cases a <;> cases b <;> cases c <;> cases e <;> decide

theorem storedQuota_updateQuota (db : MemDb) (size files ts : Int) (username : String) :
    storedQuota (db.updateQuota size files ts username) username
      = (storedQuota db username).map (fun _ => (files, size)) := by
  unfold storedQuota MemDb.updateQuota
  simp only
  induction db.users with
  | nil => rfl
  | cons r rest ih =>
    by_cases h : r.username = username
    · simp [List.find?, h]
    · simpa [List.find?, h] using ih

theorem callStep_read (intSize : Nat) (c : QuotaCall) (db : MemDb) (j : List SqlCall)
    (baseFiles baseSize : Int) (h : db.Healthy)
    (hs : storedQuota db c.username = some (baseFiles, baseSize)) :
    callStep intSize memDriver (sqlProvider memDriver) c CallState.start
        { db := db, journal := j }
      = (CallState.haveBaseline baseFiles baseSize,
         { db := db,
           journal := j ++ [SqlCall.prepare Statement.getQuota,
             SqlCall.queryRow Statement.getQuota [SqlValue.str c.username]] }) := by
  obtain ⟨hp, _, hq⟩ := h
  unfold storedQuota at hs
  cases hf : db.users.find? (fun r => decide (r.username = c.username)) with
  | none => simp [hf] at hs
  | some r =>
    simp only [hf, Option.map_some', Option.some.injEq, Prod.mk.injEq] at hs
    simp [callStep, sqlProvider, sqlCommonGetUsedQuota, dbPrepare, stmtQueryRowQuota,
      memDriver, hp, hq, hf, hs.1, hs.2]

theorem callStep_write (intSize : Nat) (c : QuotaCall) (db : MemDb) (j : List SqlCall)
    (usedFiles usedSize : Int) (h : db.Healthy) :
    callStep intSize memDriver (sqlProvider memDriver) c
        (CallState.haveBaseline usedFiles usedSize) { db := db, journal := j }
      = (CallState.returned none,
         { db := db.updateQuota (addAndClamp 64 usedSize c.sizeAdd)
             (addAndClamp intSize usedFiles c.filesAdd) c.now c.username,
           journal := j ++ [SqlCall.prepare Statement.updateQuota,
             SqlCall.exec Statement.updateQuota
               [SqlValue.int (addAndClamp 64 usedSize c.sizeAdd),
                SqlValue.int (addAndClamp intSize usedFiles c.filesAdd),
                SqlValue.int c.now, SqlValue.str c.username]] }) := by
  obtain ⟨hp, he, _⟩ := h
  simp [callStep, updateQuotaFrom, dbPrepare, stmtExec, memDriver, hp, he, liftErr]

/-- C3 fails: on stored usage (5 files, 50 bytes), the calls with deltas `(1, 10)`
and `(2, 20)`, both with `reset=false`, interleaved as read, read, write, write,
leave `(7, 70)` stored and not `(8, 80)`: the update of the first call is lost. -/
theorem updateQuota_lost_update :
    [false, true, false, true] ∈ interleavings ∧
    finalQuota 64 { username := "amy", filesAdd := 1, sizeAdd := 10, now := 7 }
        { username := "amy", filesAdd := 2, sizeAdd := 20, now := 8 }
        [false, true, false, true] quotaWorld0.db "amy" = some (7, 70) ∧
    finalQuota 64 { username := "amy", filesAdd := 1, sizeAdd := 10, now := 7 }
        { username := "amy", filesAdd := 2, sizeAdd := 20, now := 8 }
        [false, true, false, true] quotaWorld0.db "amy"
      ≠ some (max 0 (5 + 1 + 2), max 0 (50 + 10 + 20)) := by
  decide

/-- C3, amended: with `reset=false` the read of the baseline and the write are two
storage operations. For two calls on one username over a working backend: when
the calls do not overlap, the final counters are the delta of the later call
added, clamped at zero, to the outcome of the earlier call; when both calls read
before either writes, the final counters are the initial counters plus the delta
of the call that writes last, clamped at zero. -/
theorem updateQuota_two_calls (intSize : Nat) (db : MemDb) (username : String)
    (files1 size1 now1 files2 size2 now2 baseFiles baseSize : Int)
    (h : db.Healthy) (hs : storedQuota db username = some (baseFiles, baseSize)) :
    finalQuota intSize ⟨username, files1, size1, now1⟩ ⟨username, files2, size2, now2⟩
        [false, false, true, true] db username
      = some (addAndClamp intSize (addAndClamp intSize baseFiles files1) files2,
              addAndClamp 64 (addAndClamp 64 baseSize size1) size2) ∧
    finalQuota intSize ⟨username, files1, size1, now1⟩ ⟨username, files2, size2, now2⟩
        [true, true, false, false] db username
      = some (addAndClamp intSize (addAndClamp intSize baseFiles files2) files1,
              addAndClamp 64 (addAndClamp 64 baseSize size2) size1) ∧
    (∀ sched ∈ [[false, true, false, true], [true, false, false, true]],
      finalQuota intSize ⟨username, files1, size1, now1⟩ ⟨username, files2, size2, now2⟩
          sched db username
        = some (addAndClamp intSize baseFiles files2, addAndClamp 64 baseSize size2)) ∧
    (∀ sched ∈ [[false, true, true, false], [true, false, true, false]],
      finalQuota intSize ⟨username, files1, size1, now1⟩ ⟨username, files2, size2, now2⟩
          sched db username
        = some (addAndClamp intSize baseFiles files1, addAndClamp 64 baseSize size1)) := by
  have hsA : storedQuota (db.updateQuota (addAndClamp 64 baseSize size1)
      (addAndClamp intSize baseFiles files1) now1 username) username
      = some (addAndClamp intSize baseFiles files1, addAndClamp 64 baseSize size1) := by
    rw [storedQuota_updateQuota, hs]
    rfl
  have hsB : storedQuota (db.updateQuota (addAndClamp 64 baseSize size2)
      (addAndClamp intSize baseFiles files2) now2 username) username
      = some (addAndClamp intSize baseFiles files2, addAndClamp 64 baseSize size2) := by
    rw [storedQuota_updateQuota, hs]
    rfl
  have r1 := fun j => callStep_read intSize ⟨username, files1, size1, now1⟩ db j
    baseFiles baseSize h hs
  have r2 := fun j => callStep_read intSize ⟨username, files2, size2, now2⟩ db j
    baseFiles baseSize h hs
  have w1 := fun j => callStep_write intSize ⟨username, files1, size1, now1⟩ db j
    baseFiles baseSize h
  have w2 := fun j => callStep_write intSize ⟨username, files2, size2, now2⟩ db j
    baseFiles baseSize h
  have r2A := fun j => callStep_read intSize ⟨username, files2, size2, now2⟩
    (db.updateQuota (addAndClamp 64 baseSize size1) (addAndClamp intSize baseFiles files1)
      now1 username) j _ _ h hsA
  have r1B := fun j => callStep_read intSize ⟨username, files1, size1, now1⟩
    (db.updateQuota (addAndClamp 64 baseSize size2) (addAndClamp intSize baseFiles files2)
      now2 username) j _ _ h hsB
  have w2A := fun j f s => callStep_write intSize ⟨username, files2, size2, now2⟩
    (db.updateQuota (addAndClamp 64 baseSize size1) (addAndClamp intSize baseFiles files1)
      now1 username) j f s h
  have w1B := fun j f s => callStep_write intSize ⟨username, files1, size1, now1⟩
    (db.updateQuota (addAndClamp 64 baseSize size2) (addAndClamp intSize baseFiles files2)
      now2 username) j f s h
  simp only at r1 r2 w1 w2 r2A r1B w2A w1B
  refine ⟨?_, ?_, ?_, ?_⟩
  · simp only [finalQuota, runSchedule, r1, w1, r2A, w2A, storedQuota_updateQuota, hs,
      Option.map_some']
  · simp only [finalQuota, runSchedule, r2, w2, r1B, w1B, storedQuota_updateQuota, hs,
      Option.map_some']
  · intro sched hmem
    simp only [List.mem_cons, List.mem_singleton, List.not_mem_nil, or_false] at hmem
    rcases hmem with rfl | rfl <;>
      simp only [finalQuota, runSchedule, r1, r2, w1, w2A, storedQuota_updateQuota, hs,
        Option.map_some']
  · intro sched hmem
    simp only [List.mem_cons, List.mem_singleton, List.not_mem_nil, or_false] at hmem
    rcases hmem with rfl | rfl <;>
      simp only [finalQuota, runSchedule, r1, r2, w2, w1B, storedQuota_updateQuota, hs,
        Option.map_some']

/-- C3, amended, on stored usage (5 files, 50 bytes) with deltas `(1, 10)` and
`(2, 20)`: run one after the other the calls leave `(8, 80)`; when both read
first and the first call writes last they leave `(6, 60)`. -/
theorem updateQuota_two_calls_witness :
    finalQuota 64 ⟨"amy", 1, 10, 7⟩ ⟨"amy", 2, 20, 8⟩ [false, false, true, true]
        quotaWorld0.db "amy" = some (8, 80) ∧
    finalQuota 64 ⟨"amy", 1, 10, 7⟩ ⟨"amy", 2, 20, 8⟩ [false, true, true, false]
        quotaWorld0.db "amy" = some (6, 60) :=
  ⟨(updateQuota_two_calls 64 quotaWorld0.db "amy" 1 10 7 2 20 8 5 50 ⟨rfl, rfl, rfl⟩
      (by decide)).1.trans (by decide),
   ((updateQuota_two_calls 64 quotaWorld0.db "amy" 1 10 7 2 20 8 5 50 ⟨rfl, rfl, rfl⟩
      (by decide)).2.2.2 [false, true, true, false] (by decide)).trans (by decide)⟩

/-! ## Theorems: user repository -/

theorem getUsersLoop_hidden (P : Prims) (rows : List ScanOutcome) (acc : List User) :
    ∀ u ∈ getUsersLoop P rows acc, u ∈ acc ∨ (u.Password = "" ∧ u.PublicKey = "") := by
  induction rows generalizing acc with
  | nil =>
    intro u hu
    exact Or.inl hu
  | cons sc rest ih =>
    intro u hu
    unfold getUsersLoop at hu
    rcases hdec : getUserFromDbRow P (RowArg.rows sc) with ⟨v, e⟩
    rw [hdec] at hu
    cases e with
    | some err => exact Or.inl hu
    | none =>
      rcases ih _ u hu with h | h
      · rcases List.mem_append.1 h with h | h
        · exact Or.inl h
        · right
          rw [List.mem_singleton.1 h]
          exact ⟨rfl, rfl⟩
      · exact Or.inr h

theorem getUsersLoop_take (P : Prims) (rows : List ScanOutcome) (acc : List User) :
    ∃ k, k ≤ rows.length ∧
      getUsersLoop P rows acc
        = acc ++ (rows.take k).map
            (fun sc => hideCredentials (getUserFromDbRow P (RowArg.rows sc)).1) := by
  induction rows generalizing acc with
  | nil => exact ⟨0, le_refl _, by simp [getUsersLoop]⟩
  | cons sc rest ih =>
    rcases hdec : getUserFromDbRow P (RowArg.rows sc) with ⟨v, e⟩
    cases e with
    | some err => exact ⟨0, Nat.zero_le _, by simp [getUsersLoop, hdec]⟩
    | none =>
      obtain ⟨k, hk, heq⟩ := ih (acc ++ [hideCredentials v])
      refine ⟨k + 1, by simpa using hk, ?_⟩
      simp [getUsersLoop, hdec, heq]

theorem getUsersLoop_good (P : Prims) (pre rest : List ScanOutcome) (acc : List User)
    (hpre : ∀ sc ∈ pre, (getUserFromDbRow P (RowArg.rows sc)).2 = none) :
    getUsersLoop P (pre ++ rest) acc
      = getUsersLoop P rest
          (acc ++ pre.map (fun sc => hideCredentials (getUserFromDbRow P (RowArg.rows sc)).1)) := by
  induction pre generalizing acc with
  | nil => simp
  | cons sc tl ih =>
    have h1 := hpre sc (List.mem_cons_self _ _)
    rcases hdec : getUserFromDbRow P (RowArg.rows sc) with ⟨v, e⟩
    rw [hdec] at h1
    simp only at h1
    subst h1
    have h2 : ∀ x ∈ tl, (getUserFromDbRow P (RowArg.rows x)).2 = none :=
      fun x hx => hpre x (List.mem_cons_of_mem _ hx)
    simp [getUsersLoop, hdec, ih _ h2]

theorem lookup_keeps_credentials (P : Prims) (sc : ScanOutcome) (h : sc.err = none) :
    (getUserFromDbRow P (RowArg.row sc)).1.Password = sc.cols.password.getD "" ∧
    (getUserFromDbRow P (RowArg.row sc)).1.PublicKey = sc.cols.publicKey.getD "" := by
  unfold getUserFromDbRow
  simp only [RowArg.scan, h]
  cases hpw : sc.cols.password <;> cases hpk : sc.cols.publicKey <;>
    cases hpm : sc.cols.permissions <;> simp [zeroUser] <;>
    cases P.jsonUnmarshal _ <;> simp

/-- C7: every record in the slice returned by `sqlCommonGetUsers` has an empty
`Password` and an empty `PublicKey`; when the statement is prepared and the query
answers `rows`, the slice is, for a leading part of `rows`, the record
`getUserFromDbRow` decoded with the two fields emptied and nothing else changed.
The lookups `getUserByUsername` and `sqlCommonGetUserByID` return the stored
`Password` and `PublicKey` as they are (an SQL NULL being the empty string). -/
theorem getUsers_hides_credentials {σ : Type} (d : Driver σ) (P : Prims) (limit offset : Int)
    (order username : String) (w : World σ) :
    (∀ u ∈ (sqlCommonGetUsers d P limit offset order username w).1.1,
      u.Password = "" ∧ u.PublicKey = "") ∧
    (∀ rows, d.prepare w.db (Statement.getUsers order username) = none →
      d.query w.db (Statement.getUsers order username) (getUsersArgs limit offset username)
        = Except.ok rows →
      ∃ k, k ≤ rows.length ∧
        (sqlCommonGetUsers d P limit offset order username w).1.1
          = (rows.take k).map
              (fun sc => hideCredentials (getUserFromDbRow P (RowArg.rows sc)).1)) ∧
    (∀ u : User, (hideCredentials u).Password = "" ∧ (hideCredentials u).PublicKey = "" ∧
      { hideCredentials u with Password := u.Password, PublicKey := u.PublicKey } = u) ∧
    (∀ name, d.prepare w.db Statement.getUserByUsername = none →
      (d.scanUser w.db Statement.getUserByUsername [SqlValue.str name]).err = none →
      (getUserByUsername d P name w).1.1.Password
        = (d.scanUser w.db Statement.getUserByUsername [SqlValue.str name]).cols.password.getD "" ∧
      (getUserByUsername d P name w).1.1.PublicKey
        = (d.scanUser w.db Statement.getUserByUsername
            [SqlValue.str name]).cols.publicKey.getD "") ∧
    (∀ ID, d.prepare w.db Statement.getUserByID = none →
      (d.scanUser w.db Statement.getUserByID [SqlValue.int ID]).err = none →
      (sqlCommonGetUserByID d P ID w).1.1.Password
        = (d.scanUser w.db Statement.getUserByID [SqlValue.int ID]).cols.password.getD "" ∧
      (sqlCommonGetUserByID d P ID w).1.1.PublicKey
        = (d.scanUser w.db Statement.getUserByID [SqlValue.int ID]).cols.publicKey.getD "") := by
  refine ⟨?_, ?_, ?_, ?_, ?_⟩
  · intro u hu
    unfold sqlCommonGetUsers at hu
    cases hprep : d.prepare w.db (Statement.getUsers order username) with
    | some e => simp [dbPrepare, hprep] at hu
    | none =>
      cases hq : d.query w.db (Statement.getUsers order username)
          (getUsersArgs limit offset username) with
      | error e => simp [dbPrepare, stmtQuery, hprep, hq] at hu
      | ok rows =>
        simp only [dbPrepare, stmtQuery, hprep, hq] at hu
        rcases getUsersLoop_hidden P rows [] u hu with h | h
        · simp at h
        · exact h
  · intro rows hprep hq
    obtain ⟨k, hk, heq⟩ := getUsersLoop_take P rows []
    refine ⟨k, hk, ?_⟩
    simp [sqlCommonGetUsers, dbPrepare, stmtQuery, hprep, hq, heq]
  · intro u
    exact ⟨rfl, rfl, rfl⟩
  · intro name hprep herr
    simp only [getUserByUsername, dbPrepare, stmtQueryRowUser, hprep]
    exact lookup_keeps_credentials P _ herr
  · intro ID hprep herr
    simp only [sqlCommonGetUserByID, dbPrepare, stmtQueryRowUser, hprep]
    exact lookup_keeps_credentials P _ herr

/-- C7, on the in-memory database with `amy` and `bob`: the listing returns both
records with empty credentials, the lookups by username and by ID return the
stored ones. -/
theorem getUsers_hides_credentials_witness :
    (∀ u ∈ (sqlCommonGetUsers memDriver toyPrims 10 0 "ASC" "" twoUsers).1.1,
      u.Password = "" ∧ u.PublicKey = "") ∧
    (sqlCommonGetUsers memDriver toyPrims 10 0 "ASC" "" twoUsers).1.1.map (fun u => u.Username)
      = ["amy", "bob"] ∧
    ((getUserByUsername memDriver toyPrims "amy" twoUsers).1.1.Password = "pw" ∧
     (getUserByUsername memDriver toyPrims "amy" twoUsers).1.1.PublicKey = "ssh-rsa AAAB") ∧
    ((sqlCommonGetUserByID memDriver toyPrims 2 twoUsers).1.1.Password = "$2a$secret" ∧
     (sqlCommonGetUserByID memDriver toyPrims 2 twoUsers).1.1.PublicKey = "") :=
  ⟨(getUsers_hides_credentials memDriver toyPrims 10 0 "ASC" "" twoUsers).1,
   by decide,
   (getUsers_hides_credentials memDriver toyPrims 10 0 "ASC" "" twoUsers).2.2.2.1 "amy"
     (by decide) (by decide),
   (getUsers_hides_credentials memDriver toyPrims 10 0 "ASC" "" twoUsers).2.2.2.2 2
     (by decide) (by decide)⟩

/-- C10: when the list statement is prepared and the query succeeds,
`sqlCommonGetUsers` returns a nil error; if the decoding of a row fails, the
slice returned holds exactly the records of the rows before it, in row order;
if no decoding fails it holds the records of all rows. -/
theorem getUsers_decode_failure_is_silent {σ : Type} (d : Driver σ) (P : Prims)
    (limit offset : Int) (order username : String) (w : World σ) (rows : List ScanOutcome)
    (hprep : d.prepare w.db (Statement.getUsers order username) = none)
    (hquery : d.query w.db (Statement.getUsers order username)
      (getUsersArgs limit offset username) = Except.ok rows) :
    (sqlCommonGetUsers d P limit offset order username w).1.2 = none ∧
    (∀ pre bad post, rows = pre ++ bad :: post →
      (∀ sc ∈ pre, (getUserFromDbRow P (RowArg.rows sc)).2 = none) →
      (getUserFromDbRow P (RowArg.rows bad)).2 ≠ none →
      (sqlCommonGetUsers d P limit offset order username w).1.1
        = pre.map (fun sc => hideCredentials (getUserFromDbRow P (RowArg.rows sc)).1)) ∧
    ((∀ sc ∈ rows, (getUserFromDbRow P (RowArg.rows sc)).2 = none) →
      (sqlCommonGetUsers d P limit offset order username w).1.1
        = rows.map (fun sc => hideCredentials (getUserFromDbRow P (RowArg.rows sc)).1)) := by
  have hrun : (sqlCommonGetUsers d P limit offset order username w).1
      = (getUsersLoop P rows [], none) := by
    simp [sqlCommonGetUsers, dbPrepare, stmtQuery, hprep, hquery]
  rw [hrun]
  refine ⟨rfl, ?_, ?_⟩
  · intro pre bad post hrows hpre hbad
    subst hrows
    rw [getUsersLoop_good P pre (bad :: post) [] hpre]
    rcases hdec : getUserFromDbRow P (RowArg.rows bad) with ⟨v, e⟩
    rw [hdec] at hbad
    cases e with
    | none => exact absurd rfl hbad
    | some err => simp [getUsersLoop, hdec]
  · intro hall
    have := getUsersLoop_good P rows [] [] hall
    simpa [getUsersLoop] using this

/-- C10, on the in-memory database whose second row does not decode: the listing
returns the first record alone and a nil error. -/
theorem getUsers_decode_failure_is_silent_witness :
    (sqlCommonGetUsers memDriver toyPrims 10 0 "ASC" "" brokenRow).1.2 = none ∧
    (getUserFromDbRow toyPrims (RowArg.rows
        { cols := { mkRow 2 "bob" (some "pw") none 0 0 with permissions := some "\x7b" },
          err := none })).2 ≠ none ∧
    (sqlCommonGetUsers memDriver toyPrims 10 0 "ASC" "" brokenRow).1.1
      = [hideCredentials (getUserFromDbRow toyPrims (RowArg.rows
          { cols := mkRow 1 "amy" (some "pw") none 50 5, err := none })).1] :=
  ⟨(getUsers_decode_failure_is_silent memDriver toyPrims 10 0 "ASC" "" brokenRow _
      (by decide) rfl).1,
   by decide,
   (getUsers_decode_failure_is_silent memDriver toyPrims 10 0 "ASC" "" brokenRow _
      (by decide) rfl).2.1
      [{ cols := mkRow 1 "amy" (some "pw") none 50 5, err := none }]
      { cols := { mkRow 2 "bob" (some "pw") none 0 0 with permissions := some "\x7b" },
        err := none }
      [{ cols := mkRow 3 "cat" (some "pw") none 0 0, err := none }]
      (by decide) (by decide) (by decide)⟩

/-- C9 fails: `ghostUser` is valid and its ID, 99, is the ID of no stored row, yet
`sqlCommonUpdateUser` returns a nil error (and leaves the table as it was). -/
theorem ghost_update_returns_nil :
    (toyPrims.validateUser ghostUser).2 = none ∧
    (∀ r ∈ twoUsers.db.users, r.id ≠ ghostUser.ID) ∧
    (sqlCommonUpdateUser memDriver toyPrims ghostUser twoUsers).1 = none ∧
    (sqlCommonUpdateUser memDriver toyPrims ghostUser twoUsers).2.db = twoUsers.db := by
  decide

theorem map_update_missing (users : List ScannedRow) (id : Int) (f : ScannedRow → ScannedRow)
    (h : ∀ r ∈ users, r.id ≠ id) :
    users.map (fun r => if r.id = id then f r else r) = users := by
  induction users with
  | nil => rfl
  | cons r rest ih =>
    have h1 : r.id ≠ id := h r (List.mem_cons_self _ _)
    have h2 : ∀ x ∈ rest, x.id ≠ id := fun x hx => h x (List.mem_cons_of_mem _ hx)
    simp [h1, ih h2]

/-- C9, amended: for every valid user record whose ID matches no stored row,
`sqlCommonUpdateUser` leaves the table unchanged and does not fail for the
missing ID: its error is the error of `Prepare` when `Prepare` fails, else the
error of the permission serialisation when that fails, else the error of `Exec`,
which is nil when the backend reports no fault; and the error is the same
whatever rows the table holds. -/
theorem updateUser_missing_id (P : Prims) (db : MemDb) (j : List SqlCall) (user : User)
    (hvalid : (P.validateUser user).2 = none)
    (hmissing : ∀ r ∈ db.users, r.id ≠ (P.validateUser user).1.ID) :
    (sqlCommonUpdateUser memDriver P user { db := db, journal := j }).2.db = db ∧
    (db.Healthy → ∀ perms, P.getPermissionsAsJSON (P.validateUser user).1 = Except.ok perms →
      (sqlCommonUpdateUser memDriver P user { db := db, journal := j }).1 = none) ∧
    ((sqlCommonUpdateUser memDriver P user { db := db, journal := j }).1 = none ∨
      ∃ e, (sqlCommonUpdateUser memDriver P user { db := db, journal := j }).1
        = some (GoError.ext e)) ∧
    (∀ e, db.prepareErr = some e →
      (sqlCommonUpdateUser memDriver P user { db := db, journal := j }).1
        = some (GoError.ext e)) ∧
    (∀ e, db.prepareErr = none →
      P.getPermissionsAsJSON (P.validateUser user).1 = Except.error e →
      (sqlCommonUpdateUser memDriver P user { db := db, journal := j }).1
        = some (GoError.ext e)) ∧
    (∀ perms, db.prepareErr = none →
      P.getPermissionsAsJSON (P.validateUser user).1 = Except.ok perms →
      (sqlCommonUpdateUser memDriver P user { db := db, journal := j }).1
        = liftErr db.execErr) ∧
    (∀ rows : List ScannedRow,
      (sqlCommonUpdateUser memDriver P user
          { db := { db with users := rows }, journal := j }).1
        = (sqlCommonUpdateUser memDriver P user { db := db, journal := j }).1) := by
  unfold sqlCommonUpdateUser
  rcases hv : P.validateUser user with ⟨v, e⟩
  rw [hv] at hvalid hmissing
  simp only at hvalid hmissing
  subst hvalid
  simp only [dbPrepare, stmtExec]
  obtain ⟨users, prepareErr, execErr, queryErr⟩ := db
  simp only at hmissing
  cases hp : prepareErr with
  | some e =>
    simp [memDriver, MemDb.Healthy]
  | none =>
    cases hj : P.getPermissionsAsJSON v with
    | error e => simp [memDriver, hj]
    | ok perms =>
      cases he : execErr with
      | some e => simp [memDriver, hj, liftErr, MemDb.Healthy]
      | none =>
        simp [memDriver, hj, liftErr, map_update_missing users v.ID _ hmissing]

/-- C9, amended, on the in-memory database: the update of `ghostUser` changes
nothing and returns nil; when `Exec` fails it returns the error of `Exec`. -/
theorem updateUser_missing_id_witness :
    (sqlCommonUpdateUser memDriver toyPrims ghostUser twoUsers).2.db = twoUsers.db ∧
    (sqlCommonUpdateUser memDriver toyPrims ghostUser twoUsers).1 = none ∧
    (sqlCommonUpdateUser memDriver toyPrims ghostUser lockedUsers).1
      = some (GoError.ext errLocked) ∧
    (sqlCommonUpdateUser memDriver toyPrims ghostUser lockedUsers).2.db = lockedUsers.db :=
  ⟨(updateUser_missing_id toyPrims twoUsers.db [] ghostUser (by decide) (by decide)).1,
   (updateUser_missing_id toyPrims twoUsers.db [] ghostUser (by decide) (by decide)).2.1
     ⟨rfl, rfl, rfl⟩ "[]" rfl,
   (updateUser_missing_id toyPrims lockedUsers.db [] ghostUser (by decide)
     (by decide)).2.2.2.2.2.1 "[]" rfl rfl,
   (updateUser_missing_id toyPrims lockedUsers.db [] ghostUser (by decide) (by decide)).1⟩

/-! ## Theorems: quota scan handler -/

/-- C8: once the claim is acquired, the goroutine of `startQuotaScan` ends with
`RemoveQuotaScan(username)` and calls it exactly once, for every outcome of the
walker and of the quota update; it calls
`UpdateUserQuota(username, numFiles, size, true)` exactly once when the walker
succeeded and never when it failed. When the body does not decode, the lookup
fails or the claim is denied, no goroutine is started; and the handler itself
never calls the walker, `UpdateUserQuota` or `RemoveQuotaScan`. -/
theorem startQuotaScan_releases_claim (env : ApiEnv) (body : String) :
    (∀ u user, env.decodeJSON body = Except.ok u →
      env.userExists u.Username = (user, none) →
      env.addQuotaScan user.Username = true →
      ∃ t, (startQuotaScan env body).task = some t ∧
        t.getLast? = some (Event.removeQuotaScan user.Username) ∧
        t.filter Event.isRemove = [Event.removeQuotaScan user.Username] ∧
        t.filter Event.isScan = [Event.scanDirContents user.HomeDir] ∧
        (∀ numFiles size, env.scanDirContents user.HomeDir = ((numFiles, size), none) →
          t.filter Event.isUpdate
            = [Event.updateUserQuota user.Username numFiles size true]) ∧
        (∀ r e, env.scanDirContents user.HomeDir = (r, some e) →
          t.filter Event.isUpdate = [])) ∧
    ((∃ e, env.decodeJSON body = Except.error e) →
      (startQuotaScan env body).task = none) ∧
    (∀ u user err, env.decodeJSON body = Except.ok u →
      env.userExists u.Username = (user, some err) →
      (startQuotaScan env body).task = none) ∧
    (∀ u user, env.decodeJSON body = Except.ok u →
      env.userExists u.Username = (user, none) →
      env.addQuotaScan user.Username = false →
      (startQuotaScan env body).task = none) ∧
    (∀ ev ∈ (startQuotaScan env body).events,
      ev.isScan = false ∧ ev.isUpdate = false ∧ ev.isRemove = false) := by
  refine ⟨?_, ?_, ?_, ?_, ?_⟩
  · intro u user hd hu ha
    refine ⟨quotaScanTask env user, by simp [startQuotaScan, hd, hu, ha], ?_⟩
    unfold quotaScanTask
    rcases hs : env.scanDirContents user.HomeDir with ⟨⟨n, sz⟩, e⟩
    cases e with
    | some err => simp [List.filter, Event.isRemove, Event.isUpdate, Event.isScan]
    | none =>
      cases hq : env.updateUserQuota user.Username n sz true <;>
        simp [hq, List.filter, Event.isRemove, Event.isUpdate, Event.isScan]
  · rintro ⟨e, hd⟩
    simp [startQuotaScan, hd]
  · intro u user err hd hu
    simp [startQuotaScan, hd, hu]
  · intro u user hd hu ha
    simp [startQuotaScan, hd, hu, ha]
  · intro ev hev
    unfold startQuotaScan at hev
    cases hd : env.decodeJSON body with
    | error e =>
      simp only [hd, List.mem_cons, List.mem_singleton, List.not_mem_nil, or_false] at hev
      rcases hev with rfl | rfl <;> exact ⟨rfl, rfl, rfl⟩
    | ok u =>
      rcases hu : env.userExists u.Username with ⟨user, e⟩
      cases e with
      | some err =>
        simp only [hd, hu, List.mem_cons, List.mem_singleton, List.not_mem_nil, or_false] at hev
        rcases hev with rfl | rfl | rfl <;> exact ⟨rfl, rfl, rfl⟩
      | none =>
        cases ha : env.addQuotaScan user.Username <;>
          simp only [hd, hu, ha, if_true, if_false, Bool.false_eq_true, List.mem_cons,
            List.mem_singleton, List.not_mem_nil, or_false] at hev <;>
          rcases hev with rfl | rfl | rfl | rfl <;> exact ⟨rfl, rfl, rfl⟩

/-- C8, for the stand-in collaborators: the scan of `amy` commits the walker's
counts once and releases the claim last; the scan of `bob`, already claimed,
starts nothing. -/
theorem startQuotaScan_releases_claim_witness :
    (startQuotaScan toyApi "amy").task
      = some [Event.scanDirContents "/srv/amy", Event.updateUserQuota "amy" 3 300 true,
              Event.loggerDebug, Event.removeQuotaScan "amy"] ∧
    (startQuotaScan toyApi "bob").task = none :=
  ⟨by
    obtain ⟨t, ht, _⟩ := (startQuotaScan_releases_claim toyApi "amy").1
      { zeroUser with Username := "amy" }
      { zeroUser with Username := "amy", HomeDir := "/srv/amy" } rfl (by decide) (by decide)
    rw [ht]
    exact ht.symm.trans (by decide),
   (startQuotaScan_releases_claim toyApi "bob").2.2.2.1
      { zeroUser with Username := "bob" }
      { zeroUser with Username := "bob", HomeDir := "/srv/bob" } rfl (by decide) (by decide)⟩

end Sftpgo
